import Mathlib

/-!
Shallow embedding of the RBAC core of the remote MCP proxy server
(`src/rolePermissions.ts`): the static role-to-permission table
`ROLE_PERMISSIONS`, the permission evaluator functions
(`hasToolPermission`, `hasResourcePermission`, `hasSchemaPermission`,
`getFieldFilter`), the pattern matcher `matchPattern`, and the helpers
`hasToolAccess` and `getAllowedTools`.

Strings are Lean `String`; TypeScript string primitives used by the
matcher (`startsWith`, `endsWith`, `slice(0, -2)`) are embedded at the
character-list level so that the kernel can evaluate them on concrete
inputs.  A TypeScript `Record<string, T>` object literal is embedded as
a total function `String → Option T` over its declared keys, and the
`a || b` fallback idiom as `Option.getD`.  Optional object fields become
`Option` fields.
-/

namespace RBAC

/-- Character-level semantics of TypeScript `text.startsWith(p)`. -/
def strStartsWith (s p : String) : Bool :=
  p.data.isPrefixOf s.data

/-- Character-level semantics of TypeScript `text.endsWith(p)`. -/
def strEndsWith (s p : String) : Bool :=
  p.data.isSuffixOf s.data

/-- Character-level semantics of TypeScript `text.slice(0, -n)`:
drop the last `n` characters. -/
def strDropRight (s : String) (n : Nat) : String :=
  String.mk (s.data.take (s.data.length - n))

/-- The `mode` discriminator of a field filter: `'include' | 'exclude'`. -/
inductive FilterMode where
  | includeMode : FilterMode
  | excludeMode : FilterMode
deriving DecidableEq

/-- A field-level filter descriptor: a `mode` discriminator together with
the list of field names it includes or excludes. -/
structure FieldFilter where
  mode : FilterMode
  fields : List String
deriving DecidableEq

/-- The optional `schemas` block of a `RolePermissions` record.
`fieldFilters` is an object keyed by dataset-table strings, embedded as
an association list. -/
structure SchemaRules where
  allowed : Option (List String)
  denied : Option (List String)
  fieldFilters : Option (List (String × FieldFilter))
deriving DecidableEq

/-- The `RolePermissions` interface of `rolePermissions.ts`. -/
structure RolePermissions where
  tools : List String
  resources : List String
  schemas : Option SchemaRules
deriving DecidableEq

/-- The `admin` entry of `ROLE_PERMISSIONS` (note: its `schemas` block is
present but empty). -/
def admin : RolePermissions :=
  { tools := ["get_role", "get_user_data", "get_schema_table_view",
              "execute_query", "upload_dashboard", "list_dashboards",
              "get_dashboard"],
    resources := ["bigquery_catalog"],
    schemas := some { allowed := none, denied := none, fieldFilters := none } }

/-- The `analyst` entry of `ROLE_PERMISSIONS`. -/
def analyst : RolePermissions :=
  { tools := ["get_role", "get_schema_table_view", "execute_query",
              "upload_dashboard", "list_dashboards", "get_dashboard"],
    resources := ["bigquery_catalog"],
    schemas := some { allowed := none,
                      denied := some ["Users.*"],
                      fieldFilters := none } }

/-- The `viewer` entry of `ROLE_PERMISSIONS`. -/
def viewer : RolePermissions :=
  { tools := ["get_role", "get_schema_table_view", "execute_query",
              "list_dashboards", "get_dashboard"],
    resources := ["bigquery_catalog"],
    schemas := some
      { allowed := some ["products.*",
                         "Flowdata.daily_sku_performance_90d",
                         "Flowdata.daily_orders_aggregation",
                         "Vendor.availability_summary"],
        denied := none,
        fieldFilters := some
          [("Vendor.Revenue",
            { mode := FilterMode.excludeMode,
              fields := ["Sourcing___Shipped_Revenue"] })] } }

/-- The `guest` entry of `ROLE_PERMISSIONS`. -/
def guest : RolePermissions :=
  { tools := ["get_role"],
    resources := [],
    schemas := some { allowed := none,
                      denied := some ["*"],
                      fieldFilters := none } }

/-- The `no_role_assigned` entry of `ROLE_PERMISSIONS`. -/
def no_role_assigned : RolePermissions :=
  { tools := ["get_role", "get_user_data", "get_schema_table_view",
              "execute_query", "upload_dashboard", "list_dashboards",
              "get_dashboard"],
    resources := ["bigquery_catalog"],
    schemas := some { allowed := none, denied := none, fieldFilters := none } }

/-- The `ROLE_PERMISSIONS` record literal, embedded as key lookup over its
five declared keys. -/
def ROLE_PERMISSIONS (role : String) : Option RolePermissions :=
  if role = "admin" then some admin
  else if role = "analyst" then some analyst
  else if role = "viewer" then some viewer
  else if role = "guest" then some guest
  else if role = "no_role_assigned" then some no_role_assigned
  else none

/-- The lookup idiom `ROLE_PERMISSIONS[role] || ROLE_PERMISSIONS['guest']`
shared by every evaluator function (the spec calls it `getPermissionSet`). -/
def getPermissionSet (role : String) : RolePermissions :=
  (ROLE_PERMISSIONS role).getD guest

/-- `hasToolPermission` of `rolePermissions.ts`. -/
def hasToolPermission (role toolName : String) : Bool :=
  (getPermissionSet role).tools.contains toolName

/-- `hasResourcePermission` of `rolePermissions.ts`. -/
def hasResourcePermission (role resourceName : String) : Bool :=
  (getPermissionSet role).resources.contains resourceName

/-- `matchPattern` of `rolePermissions.ts`: `*` matches everything, a
pattern ending in `.*` matches identifiers starting with its stem plus a
literal dot, anything else matches only by exact equality. -/
def matchPattern (text pattern : String) : Bool :=
  if pattern = "*" then true
  else if strEndsWith pattern ".*" then
    let stem := strDropRight pattern 2
    strStartsWith text (stem ++ ".")
  else text == pattern

/-- The body of `hasSchemaPermission` after the permission-set lookup:
no `schemas` block means no restriction; a match against any `denied`
pattern refuses immediately; a present `allowed` list then grants iff
some allowed pattern matches; otherwise grant. -/
def hasSchemaPermissionFor (permissions : RolePermissions)
    (datasetTable : String) : Bool :=
  match permissions.schemas with
  | none => true
  | some schemas =>
    if (schemas.denied.getD []).any (fun pattern => matchPattern datasetTable pattern) then
      false
    else
      match schemas.allowed with
      | some allowedList =>
          allowedList.any (fun pattern => matchPattern datasetTable pattern)
      | none => true

/-- `hasSchemaPermission` of `rolePermissions.ts`. -/
def hasSchemaPermission (role datasetTable : String) : Bool :=
  hasSchemaPermissionFor (getPermissionSet role) datasetTable

/-- The body of `getFieldFilter` after the permission-set lookup: the
optional chain `permissions.schemas?.fieldFilters?.[datasetTable] || null`. -/
def getFieldFilterFor (permissions : RolePermissions)
    (datasetTable : String) : Option FieldFilter :=
  match permissions.schemas with
  | none => none
  | some schemas =>
    match schemas.fieldFilters with
    | none => none
    | some filters => filters.lookup datasetTable

/-- `getFieldFilter` of `rolePermissions.ts`. -/
def getFieldFilter (role datasetTable : String) : Option FieldFilter :=
  getFieldFilterFor (getPermissionSet role) datasetTable

/-- `hasToolAccess` of `rolePermissions.ts`: an alias of
`hasToolPermission` kept for backward compatibility. -/
def hasToolAccess : String → String → Bool := hasToolPermission

/-- `getAllowedTools` of `rolePermissions.ts`. -/
def getAllowedTools (role : String) : List String :=
  (getPermissionSet role).tools

end RBAC

namespace RBAC

/-- Helper: `getFieldFilterFor` is the association-list lookup of the
optional chain through `schemas` and `fieldFilters` (with an absent link
collapsing to the empty map). -/
theorem getFieldFilterFor_eq_lookup (p : RolePermissions) (d : String) :
    getFieldFilterFor p d =
      ((p.schemas.bind fun rules => rules.fieldFilters).getD []).lookup d := by
  cases hs : p.schemas with
  | none => simp [getFieldFilterFor, hs, List.lookup]
  | some rules =>
    cases hf : rules.fieldFilters with
    | none => simp [getFieldFilterFor, hs, hf, List.lookup]
    | some filters => simp [getFieldFilterFor, hs, hf]

/-- C1: every role string other than the five declared keys of
`ROLE_PERMISSIONS` resolves, in all four evaluator functions, to exactly
what role `guest` resolves to. -/
theorem undefined_role_falls_back_to_guest (R t r d : String)
    (h1 : R ≠ "admin") (h2 : R ≠ "analyst") (h3 : R ≠ "viewer")
    (h4 : R ≠ "guest") (h5 : R ≠ "no_role_assigned") :
    hasToolPermission R t = hasToolPermission "guest" t ∧
    hasResourcePermission R r = hasResourcePermission "guest" r ∧
    hasSchemaPermission R d = hasSchemaPermission "guest" d ∧
    getFieldFilter R d = getFieldFilter "guest" d := by
  have hR : getPermissionSet R = guest := by
    simp [getPermissionSet, ROLE_PERMISSIONS, h1, h2, h3, h4, h5]
  have hg : getPermissionSet "guest" = guest := rfl
  simp [hasToolPermission, hasResourcePermission, hasSchemaPermission,
        getFieldFilter, hR, hg]

/-- Witness for C1 at the undefined role string `superuser`. -/
theorem undefined_role_falls_back_to_guest_witness :
    hasToolPermission "superuser" "execute_query" =
      hasToolPermission "guest" "execute_query" ∧
    hasResourcePermission "superuser" "bigquery_catalog" =
      hasResourcePermission "guest" "bigquery_catalog" ∧
    hasSchemaPermission "superuser" "Users.Accounts" =
      hasSchemaPermission "guest" "Users.Accounts" ∧
    getFieldFilter "superuser" "Users.Accounts" =
      getFieldFilter "guest" "Users.Accounts" :=
  undefined_role_falls_back_to_guest "superuser" "execute_query"
    "bigquery_catalog" "Users.Accounts"
    (by decide) (by decide) (by decide) (by decide) (by decide)

end RBAC

namespace RBAC

/-- C2: the evaluator operations are total Lean functions, and unknown
identifiers take the denied/absent branch: a tool name outside the
resolved tool list yields `false`, a resource name outside the resolved
resource list yields `false`, a dataset-table key absent from the
resolved field-filter map yields `none`, and `hasSchemaPermission`
always yields one of the two booleans. -/
theorem evaluator_unknown_identifiers_denied (role t r d : String)
    (ht : (getPermissionSet role).tools.contains t = false)
    (hr : (getPermissionSet role).resources.contains r = false)
    (hd : (((getPermissionSet role).schemas.bind fun rules =>
            rules.fieldFilters).getD []).lookup d = none) :
    hasToolPermission role t = false ∧
    hasResourcePermission role r = false ∧
    getFieldFilter role d = none ∧
    (hasSchemaPermission role d = true ∨ hasSchemaPermission role d = false) := by
  refine ⟨ht, hr, ?_, ?_⟩
  · rw [getFieldFilter, getFieldFilterFor_eq_lookup]
    exact hd
  · cases hb : hasSchemaPermission role d
    · exact Or.inr rfl
    · exact Or.inl rfl

/-- Witness for C2: role `guest` with identifiers it does not know. -/
theorem evaluator_unknown_identifiers_denied_witness :
    hasToolPermission "guest" "execute_query" = false ∧
    hasResourcePermission "guest" "bigquery_catalog" = false ∧
    getFieldFilter "guest" "Vendor.Revenue" = none ∧
    (hasSchemaPermission "guest" "Vendor.Revenue" = true ∨
     hasSchemaPermission "guest" "Vendor.Revenue" = false) :=
  evaluator_unknown_identifiers_denied "guest" "execute_query"
    "bigquery_catalog" "Vendor.Revenue" (by decide) (by decide) (by decide)

/-- C3: deny takes precedence over allow: for any permission set whose
schema rules define both a `denied` and an `allowed` list, a
dataset-table matching at least one denied pattern is refused by the
schema check, regardless of the `allowed` list. -/
theorem deny_overrides_allow (p : RolePermissions) (rules : SchemaRules)
    (dl al : List String) (d : String)
    (hs : p.schemas = some rules)
    (hdl : rules.denied = some dl)
    (hal : rules.allowed = some al)
    (hm : dl.any (fun pattern => matchPattern d pattern) = true) :
    hasSchemaPermissionFor p d = false := by
  simp [hasSchemaPermissionFor, hs, hdl, hm]

/-- Witness for C3: a permission set denying and allowing the same
pattern refuses a matching table. -/
theorem deny_overrides_allow_witness :
    hasSchemaPermissionFor
      { tools := [], resources := [],
        schemas := some { allowed := some ["Users.*"],
                          denied := some ["Users.*"],
                          fieldFilters := none } }
      "Users.Accounts" = false :=
  deny_overrides_allow
    { tools := [], resources := [],
      schemas := some { allowed := some ["Users.*"],
                        denied := some ["Users.*"],
                        fieldFilters := none } }
    { allowed := some ["Users.*"], denied := some ["Users.*"],
      fieldFilters := none }
    ["Users.*"] ["Users.*"] "Users.Accounts" rfl rfl rfl (by decide)

end RBAC

namespace RBAC

/-- C4: the pattern matcher in full: `*` matches every string, a pattern
ending in `.*` matches exactly the identifiers starting with its stem
followed by a literal dot, and any other pattern matches only the
identical string; together with the five concrete examples of the spec
(including the dot-boundary case `UsersArchive.Accounts` vs `Users.*`). -/
theorem matchPattern_semantics (t p : String) :
    matchPattern t "*" = true ∧
    (strEndsWith p ".*" = true →
      matchPattern t p = strStartsWith t (strDropRight p 2 ++ ".")) ∧
    (p ≠ "*" → strEndsWith p ".*" = false → matchPattern t p = (t == p)) ∧
    matchPattern "UsersArchive.Accounts" "Users.*" = false ∧
    matchPattern "Users.Accounts" "Users.*" = true ∧
    matchPattern "anything" "*" = true ∧
    matchPattern "Users.Accounts" "Users.Accounts" = true ∧
    matchPattern "Users.Accounts" "Users.Account" = false := by
  refine ⟨by simp [matchPattern], ?_, ?_,
          by decide, by decide, by decide, by decide, by decide⟩
  · intro hends
    have hne : p ≠ "*" := by
      intro h
      rw [h] at hends
      exact absurd hends (by decide)
    simp [matchPattern, hne, hends]
  · intro hne hnends
    simp [matchPattern, hne, hnends]

/-- Witness for C4: the two conditional clauses applied at concrete
patterns. -/
theorem matchPattern_semantics_witness :
    matchPattern "Users.Accounts" "Users.*" =
      strStartsWith "Users.Accounts" (strDropRight "Users.*" 2 ++ ".") ∧
    matchPattern "Users.Accounts" "Users.Account" =
      ("Users.Accounts" == "Users.Account") :=
  ⟨(matchPattern_semantics "Users.Accounts" "Users.*").2.1 (by decide),
   (matchPattern_semantics "Users.Accounts" "Users.Account").2.2.1
     (by decide) (by decide)⟩

/-- C5: once an `allowed` list is specified the allow-list is
closed-world: the schema check succeeds exactly when the dataset-table
matches some allowed pattern and no denied pattern; concretely for role
`viewer`, `Flowdata.other_table` is refused and `products.anything` is
granted. -/
theorem allowed_list_closed_world (p : RolePermissions)
    (rules : SchemaRules) (al : List String) (d : String)
    (hs : p.schemas = some rules) (hal : rules.allowed = some al) :
    (hasSchemaPermissionFor p d = true ↔
      (al.any (fun pattern => matchPattern d pattern) = true ∧
       (rules.denied.getD []).any (fun pattern => matchPattern d pattern) = false)) ∧
    hasSchemaPermission "viewer" "Flowdata.other_table" = false ∧
    hasSchemaPermission "viewer" "products.anything" = true := by
  refine ⟨?_, by decide, by decide⟩
  cases hden : (rules.denied.getD []).any (fun pattern => matchPattern d pattern) with
  | false => simp [hasSchemaPermissionFor, hs, hal, hden]
  | true => simp [hasSchemaPermissionFor, hs, hal, hden]

/-- Witness for C5 at role `viewer` and table `Flowdata.other_table`. -/
theorem allowed_list_closed_world_witness :
    (hasSchemaPermissionFor viewer "Flowdata.other_table" = true ↔
      ((["products.*", "Flowdata.daily_sku_performance_90d",
         "Flowdata.daily_orders_aggregation",
         "Vendor.availability_summary"] : List String).any
          (fun pattern => matchPattern "Flowdata.other_table" pattern) = true ∧
       (([] : List String)).any
          (fun pattern => matchPattern "Flowdata.other_table" pattern) = false)) ∧
    hasSchemaPermission "viewer" "Flowdata.other_table" = false ∧
    hasSchemaPermission "viewer" "products.anything" = true :=
  allowed_list_closed_world viewer
    { allowed := some ["products.*", "Flowdata.daily_sku_performance_90d",
                       "Flowdata.daily_orders_aggregation",
                       "Vendor.availability_summary"],
      denied := none,
      fieldFilters := some
        [("Vendor.Revenue",
          { mode := FilterMode.excludeMode,
            fields := ["Sourcing___Shipped_Revenue"] })] }
    ["products.*", "Flowdata.daily_sku_performance_90d",
     "Flowdata.daily_orders_aggregation", "Vendor.availability_summary"]
    "Flowdata.other_table" rfl rfl

end RBAC

namespace RBAC

/-- C6: a permission set imposing no schema restriction is unrestricted:
`hasSchemaPermission` grants every dataset-table string for role `admin`
and for role `no_role_assigned` (both declare neither `allowed` nor
`denied` patterns). -/
theorem no_schema_restriction_is_unrestricted (d : String) :
    hasSchemaPermission "admin" d = true ∧
    hasSchemaPermission "no_role_assigned" d = true := by
  constructor <;> rfl

/-- C7: field-filter lookup is exact-key: role `viewer` maps the literal
key `Vendor.Revenue` to the exclude descriptor, and every other key
yields absent, with no pattern matching applied. -/
theorem getFieldFilter_exact_key (d : String) (h : d ≠ "Vendor.Revenue") :
    getFieldFilter "viewer" "Vendor.Revenue" =
      some { mode := FilterMode.excludeMode,
             fields := ["Sourcing___Shipped_Revenue"] } ∧
    getFieldFilter "viewer" d = none := by
  refine ⟨by decide, ?_⟩
  have hv : getPermissionSet "viewer" = viewer := rfl
  have hb : (d == "Vendor.Revenue") = false := by simp [h]
  simp [getFieldFilter, getFieldFilterFor, hv, viewer, List.lookup, hb]

/-- Witness for C7 at the near-miss key `Vendor.Revenues`. -/
theorem getFieldFilter_exact_key_witness :
    getFieldFilter "viewer" "Vendor.Revenue" =
      some { mode := FilterMode.excludeMode,
             fields := ["Sourcing___Shipped_Revenue"] } ∧
    getFieldFilter "viewer" "Vendor.Revenues" = none :=
  getFieldFilter_exact_key "Vendor.Revenues" (by decide)

/-- C8: field filtering is independent of schema permission: the field
filter of a permission set depends only on its `fieldFilters` chain, and
concretely role `viewer` is denied schema access to `Vendor.Revenue`
while still holding that table's exclude descriptor. -/
theorem fieldFilter_independent_of_schemaPermission
    (p q : RolePermissions) (d : String)
    (h : (p.schemas.bind fun rules => rules.fieldFilters) =
         (q.schemas.bind fun rules => rules.fieldFilters)) :
    getFieldFilterFor p d = getFieldFilterFor q d ∧
    hasSchemaPermission "viewer" "Vendor.Revenue" = false ∧
    getFieldFilter "viewer" "Vendor.Revenue" =
      some { mode := FilterMode.excludeMode,
             fields := ["Sourcing___Shipped_Revenue"] } := by
  refine ⟨?_, by decide, by decide⟩
  rw [getFieldFilterFor_eq_lookup, getFieldFilterFor_eq_lookup, h]

/-- Witness for C8: `viewer` against a permission set with the same
field filters but no schema rules at all. -/
theorem fieldFilter_independent_of_schemaPermission_witness :
    getFieldFilterFor viewer "Vendor.Revenue" =
      getFieldFilterFor
        { tools := [], resources := [],
          schemas := some
            { allowed := none, denied := none,
              fieldFilters := some
                [("Vendor.Revenue",
                  { mode := FilterMode.excludeMode,
                    fields := ["Sourcing___Shipped_Revenue"] })] } }
        "Vendor.Revenue" ∧
    hasSchemaPermission "viewer" "Vendor.Revenue" = false ∧
    getFieldFilter "viewer" "Vendor.Revenue" =
      some { mode := FilterMode.excludeMode,
             fields := ["Sourcing___Shipped_Revenue"] } :=
  fieldFilter_independent_of_schemaPermission viewer
    { tools := [], resources := [],
      schemas := some
        { allowed := none, denied := none,
          fieldFilters := some
            [("Vendor.Revenue",
              { mode := FilterMode.excludeMode,
                fields := ["Sourcing___Shipped_Revenue"] })] } }
    "Vendor.Revenue" rfl

/-- C9: every role string grants the tool `get_role`: each of the five
declared permission sets lists it, and the guest fallback (whose tool
list is exactly `get_role`) covers every other role string. -/
theorem every_role_grants_get_role (role : String) :
    hasToolPermission role "get_role" = true ∧
    guest.tools = ["get_role"] := by
  refine ⟨?_, rfl⟩
  by_cases h1 : role = "admin"
  · rw [h1]; decide
  by_cases h2 : role = "analyst"
  · rw [h2]; decide
  by_cases h3 : role = "viewer"
  · rw [h3]; decide
  by_cases h4 : role = "guest"
  · rw [h4]; decide
  by_cases h5 : role = "no_role_assigned"
  · rw [h5]; decide
  have hR : getPermissionSet role = guest := by
    simp [getPermissionSet, ROLE_PERMISSIONS, h1, h2, h3, h4, h5]
  show (getPermissionSet role).tools.contains "get_role" = true
  rw [hR]
  decide

/-- C10: `hasToolAccess` is extensionally equal to `hasToolPermission`. -/
theorem hasToolAccess_eq_hasToolPermission (role toolName : String) :
    hasToolAccess role toolName = hasToolPermission role toolName := rfl

end RBAC
